import Mathlib

/-
Verification development for the NLtoSQL backend.

The Python sources are embedded shallowly: strings are `List Char` / `String`,
Python dicts are association lists, fallible calls return `Except`, and the
behaviour of external systems (LLM HTTP providers, pandas, sqlite, sqlparse)
is abstracted into explicit outcome parameters so that the repository's own
control flow is what the theorems are about.
-/

set_option autoImplicit false
set_option linter.unusedVariables false

/-! ## Python string primitives -/

/-- Characters stripped by Python `str.strip()` (ASCII whitespace). -/
def isPySpace (c : Char) : Bool :=
  c = ' ' || c = '\t' || c = '\n' || c = '\r' || c = '\x0b' || c = '\x0c'

/-- Python `str.upper()` on a character (ASCII model). -/
def pyCharUpper (c : Char) : Char := c.toUpper

/-- Python `str.upper()` on a string, as a character list. -/
def pyUpperL (l : List Char) : List Char := l.map pyCharUpper

/-- Python `str.lower()` on a string, as a character list. -/
def pyLowerL (l : List Char) : List Char := l.map Char.toLower

/-- Remove a trailing run of whitespace characters. -/
def dropTrailingWs : List Char → List Char
  | [] => []
  | c :: cs =>
    let r := dropTrailingWs cs
    if r.isEmpty && isPySpace c then [] else c :: r

/-- Python `str.strip()`: remove leading and trailing whitespace. -/
def pyStripL (l : List Char) : List Char :=
  dropTrailingWs (l.dropWhile isPySpace)

/-- Python substring containment (`pat in s`). -/
def containsL (pat : List Char) : List Char → Bool
  | [] => pat.isEmpty
  | c :: cs => pat.isPrefixOf (c :: cs) || containsL pat cs

/-! ## SQL safety validator (src/backend/services/sql_validator.py) -/

/-- Denylist of mutating / DDL keywords held by `SQLValidator.__init__`. -/
def dangerousKeywords : List String :=
  ["DROP", "DELETE", "UPDATE", "INSERT", "ALTER", "CREATE",
   "TRUNCATE", "REPLACE", "ATTACH", "DETACH", "PRAGMA"]

/-- Embedding of the keyword loop in `SQLValidator.validate_sql` (step 1).
`u` is the uppercased query.  For each keyword in order, the code first
checks `keyword in sql_query_upper`, and then returns the error only when
additionally the keyword differs from SELECT and the uppercased query does
not start with `"SELECT"`. -/
def keywordViolation (u : List Char) : List String → Option String
  | [] => none
  | kw :: rest =>
    if containsL kw.data u then
      if kw ≠ "SELECT" && !(("SELECT".data).isPrefixOf u) && containsL kw.data u then
        some kw
      else keywordViolation u rest
    else keywordViolation u rest

/-- Result dictionary returned by `SQLValidator.validate_sql`. -/
structure ValidationOut where
  valid : Bool
  error : Option String := none
  formatted : Option String := none
deriving Repr, DecidableEq

/-- Abstraction of the external `sqlparse` library: `parse` models
`sqlparse.parse` (an exception becomes `Except.error`, otherwise the list of
parsed statements), `format` models `sqlparse.format ⋯ reindent,
keyword_case=upper`.  The statement type is abstract because the validator
only tests the parse result for emptiness. -/
structure SqlParseLib (Stmt : Type) where
  parse : String → Except String (List Stmt)
  format : String → Except String String

/-- Single-quote character, used verbatim in the validator's error message. -/
def sqChar : String := (Char.ofNat 39).toString

/-- Embedding of `SQLValidator.validate_sql`: keyword scan, SELECT-shape
check on the stripped uppercased query, then `sqlparse` parse/format inside
one try/except. -/
def validate_sql {Stmt : Type} (lib : SqlParseLib Stmt) (sql_query : String) :
    ValidationOut :=
  let u := pyUpperL sql_query.data
  match keywordViolation u dangerousKeywords with
  | some kw =>
    { valid := false
      error := some ("Query contains potentially dangerous keyword: " ++ sqChar ++ kw
        ++ sqChar ++ ". Only SELECT queries are allowed.") }
  | none =>
    if !(("SELECT".data).isPrefixOf (pyStripL u)) then
      { valid := false, error := some "Only SELECT queries are allowed." }
    else
      match lib.parse sql_query with
      | .error e => { valid := false, error := some ("SQL syntax error: " ++ e) }
      | .ok [] => { valid := false, error := some "No SQL statements found." }
      | .ok (_ :: _) =>
        match lib.format sql_query with
        | .error e => { valid := false, error := some ("SQL syntax error: " ++ e) }
        | .ok f => { valid := true, formatted := some f }

/-- Concrete parser instance for witnesses: parses every string as a single
statement and formats it unchanged (consistent with `sqlparse`, which is a
non-validating parser and does not raise on arbitrary input). -/
def idParseLib : SqlParseLib String :=
  { parse := fun s => .ok [s], format := fun s => .ok s }

/-! ## SQL cleaner (src/backend/services/llm_providers.py, BaseLLMProvider.clean_sql) -/

/-- Backtick character (written via its code point). -/
def btChar : Char := Char.ofNat 96

/-- Test for a case-insensitive "backtick backtick backtick sql" fence marker
at the head of the list. -/
def fenceSqlAt (l : List Char) : Bool :=
  match l with
  | a :: b :: c :: d :: e :: f :: _ =>
    a = btChar && b = btChar && c = btChar &&
    Char.toLower d = 's' && Char.toLower e = 'q' && Char.toLower f = 'l'
  | _ => false

/-- Test for a triple-backtick fence marker at the head of the list. -/
def fence3At (l : List Char) : Bool :=
  match l with
  | a :: b :: c :: _ => a = btChar && b = btChar && c = btChar
  | _ => false

/-- Drop one optional leading newline (the regex suffix). -/
def dropOptNl : List Char → List Char
  | [] => []
  | c :: cs => if c = '\n' then cs else c :: cs

/-- Fuelled scanner for the case-insensitive fence-with-sql marker; each step
strictly shortens the input, so fuel equal to the input length is always
enough and the zero-fuel branch is unreachable from `stripFenceSqlCI`. -/
def stripFenceSqlCIAux : Nat → List Char → List Char
  | 0, l => l
  | _ + 1, [] => []
  | fuel + 1, c :: cs =>
    if fenceSqlAt (c :: cs) then stripFenceSqlCIAux fuel (dropOptNl ((c :: cs).drop 6))
    else c :: stripFenceSqlCIAux fuel cs

/-- Left-to-right non-overlapping removal of every case-insensitive
"backtick backtick backtick sql" marker with optional trailing newline. -/
def stripFenceSqlCI (l : List Char) : List Char :=
  stripFenceSqlCIAux l.length l

/-- Fuelled scanner for the plain triple-backtick marker. -/
def stripFence3Aux : Nat → List Char → List Char
  | 0, l => l
  | _ + 1, [] => []
  | fuel + 1, c :: cs =>
    if fence3At (c :: cs) then stripFence3Aux fuel (dropOptNl ((c :: cs).drop 3))
    else c :: stripFence3Aux fuel cs

/-- Left-to-right non-overlapping removal of every triple-backtick marker
with optional trailing newline. -/
def stripFence3 (l : List Char) : List Char :=
  stripFence3Aux l.length l

/-- Case-insensitive starts-with test (ASCII model). -/
def startsWithCI (pat l : List Char) : Bool :=
  (pyLowerL pat).isPrefixOf (pyLowerL l)

/-- Anchored, case-insensitive removal of one leading label among
"SQL Query:", "Query:", "SQL:" (alternation order of the regex), followed by
a greedy run of whitespace. -/
def stripLabel (l : List Char) : List Char :=
  if startsWithCI "sql query:".data l then (l.drop 10).dropWhile isPySpace
  else if startsWithCI "query:".data l then (l.drop 6).dropWhile isPySpace
  else if startsWithCI "sql:".data l then (l.drop 4).dropWhile isPySpace
  else l

/-- Python `str.split` on a single separator character. -/
def splitOnChar (sep : Char) : List Char → List (List Char)
  | [] => [[]]
  | c :: cs =>
    if c = sep then [] :: splitOnChar sep cs
    else
      match splitOnChar sep cs with
      | [] => [[c]]
      | h :: t => (c :: h) :: t

/-- Python `str.split` on a newline character. -/
def splitNl (l : List Char) : List (List Char) := splitOnChar '\n' l

/-- Embedding of `BaseLLMProvider.clean_sql`: strip code fences, strip one
leading label, drop blank and comment-only lines, join the rest with single
spaces. -/
def clean_sql (sql_text : String) : String :=
  let t1 := stripFenceSqlCI sql_text.data
  let t2 := stripFence3 t1
  let t3 := stripLabel t2
  let lines := (splitNl (pyStripL t3)).map pyStripL
  let kept := lines.filter fun ln =>
    !ln.isEmpty && !(("--".data).isPrefixOf ln) && !(("#".data).isPrefixOf ln)
  String.mk (pyStripL (List.intercalate [' '] kept))

/-! ## LLM provider fallback manager (src/backend/services/llm_providers.py) -/

/-- Result dictionary produced by a provider's `generate_sql` and returned by
`LLMManager.generate_sql`; absent dictionary keys are `none`. -/
structure GenResult where
  success : Bool := false
  sql : Option String := none
  error : Option String := none
  model : Option String := none
  provider : Option String := none
deriving Repr, DecidableEq

/-- Behaviour of one provider client on a prompt: `Except.error` models an
exception escaping `provider.generate_sql` (caught by the manager's
try/except), `Except.ok` the returned result dictionary.  The HTTP exchange
itself is external, so the behaviour is a parameter. -/
def ProviderFun : Type := String → Except String GenResult

/-- State of `LLMManager`: the `providers` dict as an association list in
insertion order. -/
structure LLMManager where
  providers : List (String × ProviderFun)

/-- Fixed fallback ordering set in `LLMManager.__init__`. -/
def fallbackOrder : List String := ["openai", "deepinfra", "anthropic"]

/-- Candidate list built at the top of `LLMManager.generate_sql`: an explicit
preference naming a configured provider selects exactly that provider,
anything else walks `fallback_order` keeping the configured names. -/
def candidateProviders (m : LLMManager) (preference : String) :
    List (String × ProviderFun) :=
  if preference ≠ "auto" then
    match List.lookup preference m.providers with
    | some f => [(preference, f)]
    | none => fallbackOrder.filterMap fun n =>
        (List.lookup n m.providers).map fun f => (n, f)
  else
    fallbackOrder.filterMap fun n =>
      (List.lookup n m.providers).map fun f => (n, f)

/-- Fallback loop of `LLMManager.generate_sql`: call each candidate in turn,
swallow exceptions, return the first result whose `success` flag is set; when
the list is exhausted return the all-failed result.  The second component
records the names of the providers that were invoked. -/
def tryProviders (prompt : String) :
    List (String × ProviderFun) → GenResult × List String
  | [] => ({ success := false,
             error := some "All LLM providers failed to generate SQL." }, [])
  | (n, f) :: rest =>
    match f prompt with
    | .error _ =>
      let r := tryProviders prompt rest
      (r.1, n :: r.2)
    | .ok res =>
      if res.success then (res, [n])
      else
        let r := tryProviders prompt rest
        (r.1, n :: r.2)

/-- Embedding of `LLMManager.generate_sql` (the provider fallback manager),
instrumented with the list of invoked provider names. -/
def llm_generate_sql (m : LLMManager) (prompt : String)
    (preference : String) : GenResult × List String :=
  let cands := candidateProviders m preference
  if cands.isEmpty then
    ({ success := false,
       error := some "No LLM providers configured or available for the given preference." }, [])
  else
    tryProviders prompt cands

/-- A provider behaviour that always fails with an HTTP-style error. -/
def failingProvider : ProviderFun :=
  fun _ => .ok { success := false, error := some "OpenAI API error: 500" }

/-- A provider behaviour that succeeds with a fixed query. -/
def okProvider : ProviderFun :=
  fun _ => .ok { success := true, sql := some "SELECT 1", model := some "m",
                 provider := some "deepinfra" }

/-! ## Database manager (src/backend/services/database_manager.py) -/

/-- Cell value stored in or returned from the relational store (abstract). -/
abbrev Val : Type := String

/-- One table of the session's relational store. -/
structure Table where
  cols : List String
  rows : List (List Val)
deriving Repr, DecidableEq

/-- Contents of one SQLite database file. -/
structure SqliteStore where
  tables : List (String × Table)
deriving Repr, DecidableEq

/-- A store freshly created by `sqlite3.connect` before any table is written. -/
def emptyStore : SqliteStore := ⟨[]⟩

/-- Metadata record kept in `session_db_map` for one session. -/
structure SessionRec where
  db_path : String
  created_at : Nat
  original_filename : String
deriving Repr, DecidableEq

/-- State of a `DatabaseManager` together with the temp-directory slice of the
filesystem it touches: `fs` maps a path to the database file stored there. -/
structure DBState where
  temp_dir : String
  session_db_map : List (String × SessionRec)
  fs : List (String × SqliteStore)
deriving Repr, DecidableEq

/-- Remove the file at a path if present (`os.path.exists` check plus
`os.remove`). -/
def fsRemove (fs : List (String × SqliteStore)) (p : String) :
    List (String × SqliteStore) :=
  fs.filter fun kv => kv.1 ≠ p

/-- Write (create or overwrite) the file at a path.  The filesystem is a
finite map from paths to contents; entry order is not observable, so the
entry is placed at the head. -/
def fsWrite (fs : List (String × SqliteStore)) (p : String) (v : SqliteStore) :
    List (String × SqliteStore) :=
  (p, v) :: fsRemove fs p

/-- Python word character (the regex class backslash-w, ASCII model: the
repository's data is ASCII; non-ASCII word characters would also be letters,
which only strengthens the sanitization claim). -/
def isWordChar (c : Char) : Bool :=
  c.isAlphanum || c = '_'

/-- Space-to-underscore replacement applied to every character. -/
def spaceToUnderscore (c : Char) : Char :=
  if c = ' ' then '_' else c

/-- Column-name sanitization used by `_convert_to_sqlite` in both
`database_manager.py` and `main.py` (`SessionManager`): strip, replace each
space by an underscore, delete every non-word character. -/
def sanitizeColumn (s : String) : String :=
  String.mk (((pyStripL s.data).map spaceToUnderscore).filter isWordChar)

/-- Tabular data as loaded by `pandas.read_csv` / `read_excel` (abstract:
pandas is external, so the parsed frame or the parse failure is a
parameter). -/
structure DataFrame where
  cols : List String
  rows : List (List Val)
deriving Repr, DecidableEq

/-- Embedding of `DatabaseManager._convert_to_sqlite` (the identical logic
also appears as `SessionManager._convert_to_sqlite` in main.py): read the
file through pandas, sanitize the column names, connect (which creates the
database file on disk), then write table "data"; a failure of the pandas
read (`readO`) or of `DataFrame.to_sql` (`toSqlO`) escapes as an error, and
the connection open/write order means a `to_sql` failure leaves a partial
file behind. -/
def convert_to_sqlite (fs : List (String × SqliteStore))
    (sqlite_path file_ext : String)
    (readO : Except String DataFrame) (toSqlO : Except String Unit) :
    Except String Unit × List (String × SqliteStore) :=
  if file_ext = "csv" ∨ file_ext = "txt" ∨ file_ext = "xls" ∨ file_ext = "xlsx" then
    match readO with
    | .error e => (.error e, fs)
    | .ok df =>
      let cols2 := df.cols.map sanitizeColumn
      let fs1 := fsWrite fs sqlite_path emptyStore
      match toSqlO with
      | .error e => (.error e, fs1)
      | .ok _ => (.ok (), fsWrite fs1 sqlite_path ⟨[("data", ⟨cols2, df.rows⟩)]⟩)
  else
    (.error ("Unsupported conversion format: " ++ file_ext), fs)

/-- Python `filename.split(".")[-1].lower()`. -/
def fileExt (filename : String) : String :=
  String.mk (pyLowerL ((splitOnChar '.' filename.data).getLastD []))

/-- Embedding of `DatabaseManager.create_database_from_file`.  The fresh
session id (a UUID in the source) and the wall clock are parameters, as are
the outcomes of the external pandas read, the `to_sql` write and — for an
uploaded `.db` file — the `shutil.copy`.  On any exception the handler removes
the session's database file if it exists and re-raises. -/
def create_database_from_file (st : DBState) (session_id : String)
    (original_filename : String) (now : Nat)
    (readO : Except String DataFrame) (toSqlO : Except String Unit)
    (copyO : Except String SqliteStore) :
    Except String String × DBState :=
  let ext := fileExt original_filename
  let sqlite_path := st.temp_dir ++ "/" ++ session_id ++ ".db"
  let attempt : Except String Unit × List (String × SqliteStore) :=
    if ext = "csv" ∨ ext = "txt" ∨ ext = "xlsx" ∨ ext = "xls" then
      convert_to_sqlite st.fs sqlite_path ext readO toSqlO
    else if ext = "db" then
      match copyO with
      | .ok store => (.ok (), fsWrite st.fs sqlite_path store)
      | .error e => (.error e, st.fs)
    else
      (.error ("Unsupported file format: " ++ ext), st.fs)
  match attempt with
  | (.ok _, fs1) =>
    (.ok session_id,
     { st with
        fs := fs1
        session_db_map := st.session_db_map ++
          [(session_id, ⟨sqlite_path, now, original_filename⟩)] })
  | (.error e, fs1) =>
    (.error e, { st with fs := fsRemove fs1 sqlite_path })

/-! ## Query executor (DatabaseManager.execute_query) -/

/-- Python dict insertion: an existing key keeps its position and gets the
new value, a new key is appended. -/
def pyDictInsert (d : List (String × Val)) (k : String) (v : Val) :
    List (String × Val) :=
  if (List.lookup k d).isSome then
    d.map fun kv => if kv.1 = k then (k, v) else kv
  else d ++ [(k, v)]

/-- Fold a list of key-value pairs into a Python dict. -/
def pyDictOfPairs (ps : List (String × Val)) : List (String × Val) :=
  ps.foldl (fun d kv => pyDictInsert d kv.1 kv.2) []

/-- The dict comprehension building one result row in `execute_query`:
pair each value with the column name of its index (the engine returns rows
whose length equals the number of cursor columns). -/
def rowToDict (columns : List String) (row : List Val) : List (String × Val) :=
  pyDictOfPairs (columns.zip row)

/-- Result dictionary of `DatabaseManager.execute_query`; keys absent from a
branch are `none`. -/
structure ExecOut where
  success : Bool
  results : Option (List (List (String × Val))) := none
  row_count : Option Nat := none
  error : Option String := none
deriving Repr, DecidableEq

/-- Instrumented return of `execute_query`: the result dictionary plus
whether a connection was opened and whether it was closed on the way out. -/
structure ExecTrace where
  out : ExecOut
  opened : Bool
  closed : Bool
deriving Repr, DecidableEq

/-- Embedding of `DatabaseManager.execute_query`.  `connectO` is the outcome
of `sqlite3.connect` and `engineO` the outcome of `cursor.execute` plus the
fetches: an engine-level `sqlite3.Error` becomes `Except.error` with the
engine message, success yields the cursor-description column names and the
fetched rows.  The `finally` block closes the connection whenever one was
assigned. -/
def execute_query (st : DBState) (session_id sql_query : String)
    (connectO : Except String Unit)
    (engineO : Except String (List String × List (List Val))) : ExecTrace :=
  match List.lookup session_id st.session_db_map with
  | none =>
    { out := { success := false,
               error := some ("No database found for session ID: " ++ session_id) }
      opened := false, closed := false }
  | some _ =>
    match connectO with
    | .error e =>
      { out := { success := false, error := some e }, opened := false, closed := false }
    | .ok _ =>
      match engineO with
      | .error e =>
        { out := { success := false, error := some e }, opened := true, closed := true }
      | .ok (columns, raw_results) =>
        let results := raw_results.map (rowToDict columns)
        { out := { success := true, results := some results,
                   row_count := some results.length }
          opened := true, closed := true }

/-! ## The generate-sql endpoint guard (src/backend/main.py, generate_sql) -/

/-- Keyword list of the inline "Basic SQL injection prevention" block in the
`/generate-sql` handler of main.py. -/
def dangerousKeywordsInline : List String :=
  ["DROP", "DELETE", "UPDATE", "INSERT", "ALTER", "CREATE"]

/-- Embedding of that inline guard: the handler returns the error response
exactly when some denylisted keyword occurs in the uppercased SQL while the
substring SELECT does not occur in it at all. -/
def inlineGuardBlocks (sql : String) : Bool :=
  let u := pyUpperL sql.data
  dangerousKeywordsInline.any fun kw =>
    containsL kw.data u && !(containsL ("SELECT".data) u)

/-- Modelled from the spec: SQLite statement-kind semantics are not part of
this repository, and the spec's invariant speaks of "data-modifying"
statements; a statement is data-modifying when its stripped uppercased text
starts with a mutating or DDL verb. -/
def sqlMutates (sql : String) : Bool :=
  ["DROP", "DELETE", "UPDATE", "INSERT", "ALTER", "CREATE", "TRUNCATE",
   "REPLACE"].any fun kw => kw.data.isPrefixOf (pyStripL (pyUpperL sql.data))

/-- Modelled from the spec: executing a statement against the session store.
A read-only SELECT leaves the store unchanged; a data-modifying statement
changes it (for the DELETE used below, the matching rows are removed). -/
def applySqlToStore (store : SqliteStore) (sql : String) : SqliteStore :=
  if sqlMutates sql then
    ⟨store.tables.map fun nt => (nt.1, ⟨nt.2.cols, []⟩)⟩
  else store

/-- The execute step of the `/generate-sql` handler after a successful LLM
response: if the inline guard blocks, nothing is executed; otherwise
`cursor.execute(sql)` runs the statement against the session store.  The
Boolean records whether the statement was executed. -/
def generate_sql_execute (store : SqliteStore) (sql : String) :
    SqliteStore × Bool :=
  if inlineGuardBlocks sql then (store, false)
  else (applySqlToStore store sql, true)


/-! ## Fixtures used by witnesses and counterexamples -/

/-- A provider call that counts as successful for the fallback loop. -/
def providerSucceeds (prompt : String) (p : String × ProviderFun) : Prop :=
  ∃ r, p.2 prompt = .ok r ∧ r.success = true

/-- A provider behaviour returning success whose cleaned SQL is empty, as a
real provider does when the model answers with an empty code fence (compare
`clean_sql` on such a response). -/
def emptySqlProvider : ProviderFun :=
  fun _ => .ok { success := true, sql := some "", model := some "gpt-4",
                 provider := some "openai" }

/-- Manager configured with the single empty-SQL provider. -/
def mgrEmptySql : LLMManager := ⟨[("openai", emptySqlProvider)]⟩

/-- Manager with a failing first provider and a succeeding second one. -/
def mgrTwo : LLMManager :=
  ⟨[("openai", failingProvider), ("deepinfra", okProvider)]⟩

/-- The statement the LLM can return that defeats the inline guard of the
`/generate-sql` handler: it is data-modifying, yet contains the substring
SELECT. -/
def c1FailingSql : String := "DELETE FROM data WHERE id IN (SELECT id FROM data)"

/-- A session store holding one row, as created from a one-row CSV upload. -/
def c1Store : SqliteStore := ⟨[("data", ⟨["id"], [["1"]]⟩)]⟩

/-- A session store used by the execution witnesses. -/
def demoStore : SqliteStore := ⟨[("data", ⟨["a", "b"], [["1", "2"]]⟩)]⟩

/-- A database-manager state with one live session backed by `demoStore`. -/
def demoState : DBState :=
  ⟨"temp", [("s", ⟨"temp/s.db", 0, "d.csv"⟩)], [("temp/s.db", demoStore)]⟩

/-! ## Helper lemmas -/

theorem isPrefixOf_eq_true_iff (l1 l2 : List Char) :
    l1.isPrefixOf l2 = true ↔ l1 <+: l2 :=
  List.isPrefixOf_iff_prefix

theorem dropTrailingWs_cons_of_not_space (c : Char) (cs : List Char)
    (h : isPySpace c = false) :
    dropTrailingWs (c :: cs) = c :: dropTrailingWs cs := by
  simp [dropTrailingWs, h]

theorem strip_preserves_select (u : List Char)
    (h : ("SELECT".data).isPrefixOf u = true) :
    ("SELECT".data).isPrefixOf (pyStripL u) = true := by
  obtain ⟨t, ht⟩ := (isPrefixOf_eq_true_iff _ _).mp h
  subst ht
  rw [isPrefixOf_eq_true_iff]
  have hs : "SELECT".data = ['S', 'E', 'L', 'E', 'C', 'T'] := rfl
  rw [hs]
  unfold pyStripL
  rw [show ((['S', 'E', 'L', 'E', 'C', 'T'] : List Char) ++ t).dropWhile isPySpace
      = 'S' :: 'E' :: 'L' :: 'E' :: 'C' :: 'T' :: t by
    rfl]
  rw [dropTrailingWs_cons_of_not_space _ _ (by decide),
      dropTrailingWs_cons_of_not_space _ _ (by decide),
      dropTrailingWs_cons_of_not_space _ _ (by decide),
      dropTrailingWs_cons_of_not_space _ _ (by decide),
      dropTrailingWs_cons_of_not_space _ _ (by decide),
      dropTrailingWs_cons_of_not_space _ _ (by decide)]
  exact ⟨dropTrailingWs t, rfl⟩

theorem keywordViolation_none_of_select (u : List Char)
    (h : ("SELECT".data).isPrefixOf u = true) (kws : List String) :
    keywordViolation u kws = none := by
  induction kws with
  | nil => rfl
  | cons kw rest ih =>
    unfold keywordViolation
    rw [h]
    simp [ih]

/-! ## C2: validator rejection shape -/

/-- C2 (amended): every SQL string whose uppercased, whitespace-stripped form
does not start with SELECT is marked invalid by `validate_sql`, with an error
message; the original claim's further assertion that multi-statement inputs
beginning with SELECT are also rejected fails (see the counterexample). -/
theorem validator_rejects_non_select {Stmt : Type} (lib : SqlParseLib Stmt)
    (s : String)
    (h : ("SELECT".data).isPrefixOf (pyStripL (pyUpperL s.data)) = false) :
    (validate_sql lib s).valid = false ∧ (validate_sql lib s).error.isSome = true := by
  simp only [validate_sql]
  split
  · simp
  · simp [h]

/-- C2 counterexample: the two-statement input "SELECT 1; DROP TABLE data" is
not a single read statement — its uppercase form contains a second, mutating
DROP statement — yet `validate_sql` marks it valid, because the keyword scan
is skipped whenever the uppercased query starts with SELECT (sqlparse, a
non-validating parser, parses the input successfully, as `idParseLib`
reflects). -/
theorem validator_accepts_multistatement_cx :
    (validate_sql idParseLib "SELECT 1; DROP TABLE data").valid = true
    ∧ containsL ("; DROP TABLE DATA".data)
        (pyUpperL ("SELECT 1; DROP TABLE data".data)) = true :=
  ⟨rfl, rfl⟩

/-- C2 witness: the amended theorem applied to a concrete UPDATE statement. -/
theorem validator_rejects_non_select_witness :
    (validate_sql idParseLib "UPDATE data SET a = 1").valid = false :=
  (validator_rejects_non_select idParseLib "UPDATE data SET a = 1" rfl).1

/-! ## C3: validator acceptance shape -/

/-- C3: a SQL string beginning with SELECT, free of denylisted keywords, that
the SQL parser parses successfully, is marked valid, and the returned
pretty-printed rendering is the parser library's formatting of the query; by
the round-trip property of the external formatter (hypothesis `hroundtrip`,
a property of `sqlparse`, which is not part of this repository) that
rendering re-parses to an equivalent statement list. -/
theorem validator_accepts_clean_select {Stmt : Type} (lib : SqlParseLib Stmt)
    (equivStmts : List Stmt → List Stmt → Prop) (s fmt : String)
    (stmts : List Stmt)
    (hsel : ("SELECT".data).isPrefixOf (pyUpperL s.data) = true)
    (hkw : ∀ kw ∈ dangerousKeywords, containsL kw.data (pyUpperL s.data) = false)
    (hparse : lib.parse s = .ok stmts) (hne : stmts ≠ [])
    (hfmt : lib.format s = .ok fmt)
    (hroundtrip : ∃ stmts2, lib.parse fmt = .ok stmts2 ∧ equivStmts stmts2 stmts) :
    validate_sql lib s = { valid := true, formatted := some fmt }
    ∧ ∃ stmts2, lib.parse fmt = .ok stmts2 ∧ equivStmts stmts2 stmts := by
  refine ⟨?_, hroundtrip⟩
  cases stmts with
  | nil => exact absurd rfl hne
  | cons a t =>
    simp only [validate_sql]
    rw [keywordViolation_none_of_select _ hsel]
    simp [strip_preserves_select _ hsel, hparse, hfmt]

/-- C3 witness: the acceptance theorem applied to a concrete clean SELECT. -/
theorem validator_accepts_clean_select_witness :
    validate_sql idParseLib "SELECT id FROM data"
      = { valid := true, formatted := some "SELECT id FROM data" }
    ∧ ∃ stmts2, idParseLib.parse "SELECT id FROM data" = .ok stmts2
        ∧ stmts2 = ["SELECT id FROM data"] :=
  validator_accepts_clean_select idParseLib (fun a b => a = b)
    "SELECT id FROM data" "SELECT id FROM data" ["SELECT id FROM data"]
    rfl (by decide) rfl (by decide) rfl ⟨["SELECT id FROM data"], rfl, rfl⟩

/-! ## LLM manager lemmas -/

theorem filterMap_lookup_names (ps : List (String × ProviderFun))
    (L : List String) :
    (L.filterMap fun n => (List.lookup n ps).map fun f => (n, f)).map Prod.fst
      = L.filter fun n => (List.lookup n ps).isSome := by
  induction L with
  | nil => rfl
  | cons n rest ih =>
    cases h : List.lookup n ps with
    | none => simp [h, ih]
    | some f => simp [h, ih]

theorem tryProviders_all_fail (prompt : String)
    (l : List (String × ProviderFun))
    (h : ∀ q ∈ l, ¬ providerSucceeds prompt q) :
    (tryProviders prompt l).1
      = { success := false,
          error := some "All LLM providers failed to generate SQL." } := by
  induction l with
  | nil => rfl
  | cons p rest ih =>
    obtain ⟨n, f⟩ := p
    have hp := h (n, f) (List.mem_cons_self _ _)
    have hrest : ∀ q ∈ rest, ¬ providerSucceeds prompt q :=
      fun q hq => h q (List.mem_cons_of_mem _ hq)
    cases hf : f prompt with
    | error e => simp [tryProviders, hf, ih hrest]
    | ok res =>
      have hres : res.success = false := by
        cases hres : res.success
        · rfl
        · exact absurd ⟨res, hf, hres⟩ hp
      simp [tryProviders, hf, hres, ih hrest]

theorem tryProviders_first_success (prompt : String)
    (pre : List (String × ProviderFun)) (p : String × ProviderFun)
    (post : List (String × ProviderFun)) (r : GenResult)
    (hpre : ∀ q ∈ pre, ¬ providerSucceeds prompt q)
    (hp : p.2 prompt = .ok r) (hs : r.success = true) :
    (tryProviders prompt (pre ++ p :: post)).1 = r := by
  induction pre with
  | nil =>
    obtain ⟨n, f⟩ := p
    have hp2 : f prompt = Except.ok r := hp
    simp only [List.nil_append]
    simp [tryProviders, hp2, hs]
  | cons q qs ih =>
    obtain ⟨n, f⟩ := q
    have hq := hpre (n, f) (List.mem_cons_self _ _)
    have hqs : ∀ x ∈ qs, ¬ providerSucceeds prompt x :=
      fun x hx => hpre x (List.mem_cons_of_mem _ hx)
    cases hf : f prompt with
    | error e => simp [tryProviders, hf, ih hqs]
    | ok res =>
      have hres : res.success = false := by
        cases hres : res.success
        · rfl
        · exact absurd ⟨res, hf, hres⟩ hq
      simp [tryProviders, hf, hres, ih hqs]

theorem tryProviders_success_mem (prompt : String)
    (l : List (String × ProviderFun))
    (h : (tryProviders prompt l).1.success = true) :
    ∃ p ∈ l, p.2 prompt = .ok (tryProviders prompt l).1 := by
  induction l with
  | nil => simp [tryProviders] at h
  | cons p rest ih =>
    obtain ⟨n, f⟩ := p
    cases hf : f prompt with
    | error e =>
      have h2 : (tryProviders prompt rest).1.success = true := by
        simpa [tryProviders, hf] using h
      obtain ⟨q, hq, he⟩ := ih h2
      refine ⟨q, List.mem_cons_of_mem _ hq, ?_⟩
      simpa [tryProviders, hf] using he
    | ok res =>
      cases hres : res.success with
      | false =>
        have h2 : (tryProviders prompt rest).1.success = true := by
          simpa [tryProviders, hf, hres] using h
        obtain ⟨q, hq, he⟩ := ih h2
        refine ⟨q, List.mem_cons_of_mem _ hq, ?_⟩
        simpa [tryProviders, hf, hres] using he
      | true =>
        refine ⟨(n, f), List.mem_cons_self _ _, ?_⟩
        simp [tryProviders, hf, hres]

theorem tryProviders_single_invoked (prompt n : String) (f : ProviderFun) :
    (tryProviders prompt [(n, f)]).2 = [n] := by
  cases hf : f prompt with
  | error e => simp [tryProviders, hf]
  | ok res => cases hres : res.success <;> simp [tryProviders, hf, hres]

/-! ## C4, C5, C6: fallback manager -/

/-- C4: the fallback manager (1) with an explicit configured preference
builds a single-candidate list and invokes only that provider, (2) with
preference "auto" lines the candidates up in the fixed fallback order
restricted to configured providers, (3) returns the result of the first
successful candidate, skipping failed results and raised exceptions alike
(the embedding is a total function, so no exception passes its boundary),
and (4) when every candidate fails returns a failed result whose error is
the literal message of the code, which the claim's phrase "All LLM providers
failed" is a prefix of. -/
theorem llm_manager_fallback_policy (m : LLMManager)
    (prompt preference : String) :
    (∀ f, preference ≠ "auto" → List.lookup preference m.providers = some f →
        candidateProviders m preference = [(preference, f)]
        ∧ (llm_generate_sql m prompt preference).2 = [preference])
    ∧ (preference = "auto" →
        (candidateProviders m preference).map Prod.fst
          = fallbackOrder.filter fun n => (List.lookup n m.providers).isSome)
    ∧ (∀ pre p post r, candidateProviders m preference = pre ++ p :: post →
        (∀ q ∈ pre, ¬ providerSucceeds prompt q) →
        p.2 prompt = .ok r → r.success = true →
        (llm_generate_sql m prompt preference).1 = r)
    ∧ ((∀ q ∈ candidateProviders m preference, ¬ providerSucceeds prompt q) →
        candidateProviders m preference ≠ [] →
        (llm_generate_sql m prompt preference).1
          = { success := false,
              error := some "All LLM providers failed to generate SQL." }
        ∧ ("All LLM providers failed".data).isPrefixOf
            ("All LLM providers failed to generate SQL.".data) = true) := by
  refine ⟨?_, ?_, ?_, ?_⟩
  · intro f hpref hlook
    have hc : candidateProviders m preference = [(preference, f)] := by
      unfold candidateProviders
      rw [if_pos hpref, hlook]
    refine ⟨hc, ?_⟩
    simp only [llm_generate_sql, hc]
    simp [tryProviders_single_invoked]
  · intro hauto
    subst hauto
    unfold candidateProviders
    simp [filterMap_lookup_names]
  · intro pre p post r hcands hpre hp hs
    simp only [llm_generate_sql, hcands]
    have hne : (pre ++ p :: post).isEmpty = false := by
      cases pre <;> simp
    simp only [hne, Bool.false_eq_true, if_false]
    exact tryProviders_first_success prompt pre p post r hpre hp hs
  · intro hall hne
    refine ⟨?_, rfl⟩
    simp only [llm_generate_sql]
    have hisempty : (candidateProviders m preference).isEmpty = false := by
      cases hc : candidateProviders m preference with
      | nil => exact absurd hc hne
      | cons a l => simp
    simp only [hisempty, Bool.false_eq_true, if_false]
    exact tryProviders_all_fail prompt _ hall

/-- C4 witness: with a failing first provider and a succeeding second,
"auto" returns the second provider's result. -/
theorem llm_manager_fallback_policy_witness :
    (llm_generate_sql mgrTwo "q" "auto").1
      = { success := true, sql := some "SELECT 1", model := some "m",
          provider := some "deepinfra" } := by
  refine (llm_manager_fallback_policy mgrTwo "q" "auto").2.2.1
    [("openai", failingProvider)] ("deepinfra", okProvider) [] _ rfl ?_ rfl rfl
  intro q hq
  simp only [List.mem_singleton] at hq
  subst hq
  rintro ⟨r, hr, hs⟩
  simp only [failingProvider] at hr
  rw [show r = { success := false, error := some "OpenAI API error: 500" } from
      (Except.ok.inj hr).symm] at hs
  exact absurd hs (by decide)

/-- C5 counterexample: the manager checks only the success flag, so a
provider returning success with an empty SQL string is passed through
verbatim: the manager's result is successful yet carries `sql = ""`.  A real
provider produces exactly such a result when the model's reply is an empty
code fence, since `clean_sql` maps that reply to the empty string. -/
theorem llm_success_empty_sql_cx :
    (llm_generate_sql mgrEmptySql "p" "auto").1.success = true
    ∧ (llm_generate_sql mgrEmptySql "p" "auto").1.sql = some ""
    ∧ clean_sql "```sql\n```" = "" :=
  ⟨rfl, rfl, rfl⟩

/-- C5 (amended): whenever the fallback manager returns a successful result,
that result is the verbatim `Except.ok` outcome of one of the candidate
providers — the manager requires the success flag and nothing else, so the
SQL string it carries is whatever that provider returned, possibly empty. -/
theorem llm_success_from_candidate (m : LLMManager) (prompt preference : String)
    (h : (llm_generate_sql m prompt preference).1.success = true) :
    ∃ p ∈ candidateProviders m preference,
      p.2 prompt = .ok (llm_generate_sql m prompt preference).1 := by
  by_cases hc : (candidateProviders m preference).isEmpty = true
  · exfalso
    simp only [llm_generate_sql, hc, if_true] at h
    exact Bool.noConfusion h
  · have hc2 : (candidateProviders m preference).isEmpty = false := by
      cases hb : (candidateProviders m preference).isEmpty
      · rfl
      · exact absurd hb hc
    simp only [llm_generate_sql, hc2, Bool.false_eq_true, if_false] at h ⊢
    exact tryProviders_success_mem prompt _ h

/-- C5 witness: the amended theorem applied to the empty-SQL manager. -/
theorem llm_success_from_candidate_witness :
    ∃ p ∈ candidateProviders mgrEmptySql "auto",
      p.2 "p" = .ok (llm_generate_sql mgrEmptySql "p" "auto").1 :=
  llm_success_from_candidate mgrEmptySql "p" "auto" rfl

/-- C6: with zero configured providers the manager returns an immediate
failed result; the invoked-provider list is empty, so no provider is called
and no network request happens. -/
theorem llm_no_providers (m : LLMManager) (prompt preference : String)
    (h : m.providers = []) :
    llm_generate_sql m prompt preference
      = ({ success := false,
           error := some "No LLM providers configured or available for the given preference." },
         []) := by
  have hc : candidateProviders m preference = [] := by
    unfold candidateProviders
    rw [h]
    simp [fallbackOrder]
  simp [llm_generate_sql, hc]

/-- C6 witness: the zero-provider theorem at an explicit preference. -/
theorem llm_no_providers_witness :
    llm_generate_sql ⟨[]⟩ "q" "openai"
      = ({ success := false,
           error := some "No LLM providers configured or available for the given preference." },
         []) :=
  llm_no_providers ⟨[]⟩ "q" "openai" rfl

/-! ## C1: the generate-sql path executes a data-modifying statement -/

set_option maxRecDepth 8192 in
/-- C1 (code-bug evidence): the inline guard of the `/generate-sql` handler
only blocks a denylisted keyword when the substring SELECT is absent from
the whole query, so the single data-modifying statement
`DELETE FROM data WHERE id IN (SELECT id FROM data)` passes the guard, is
executed, and changes the session's store — contradicting both the spec's
invariant and the handler's own error message that only SELECT queries are
allowed. -/
theorem generate_sql_executes_mutation :
    inlineGuardBlocks c1FailingSql = false
    ∧ sqlMutates c1FailingSql = true
    ∧ (generate_sql_execute c1Store c1FailingSql).2 = true
    ∧ (generate_sql_execute c1Store c1FailingSql).1 ≠ c1Store := by
  refine ⟨rfl, rfl, rfl, ?_⟩
  decide

/-! ## C7: ingestion failure atomicity -/

theorem lookup_none_fsRemove (fs : List (String × SqliteStore)) (p : String)
    (h : List.lookup p fs = none) : fsRemove fs p = fs := by
  induction fs with
  | nil => rfl
  | cons kv rest ih =>
    obtain ⟨q, v⟩ := kv
    by_cases hq : p = q
    · subst hq
      simp [List.lookup] at h
    · have hbeq : (p == q) = false := beq_eq_false_iff_ne.mpr hq
      have h2 : List.lookup p rest = none := by
        simpa [List.lookup, hbeq] using h
      have hqp : q ≠ p := fun e => hq e.symm
      simp [fsRemove, List.filter_cons, hqp]
      simpa [fsRemove] using ih h2

theorem lookup_fsWrite (fs : List (String × SqliteStore)) (p : String)
    (v : SqliteStore) : List.lookup p (fsWrite fs p v) = some v := by
  simp [fsWrite, List.lookup]

theorem fsRemove_fsWrite (fs : List (String × SqliteStore)) (p : String)
    (v : SqliteStore) : fsRemove (fsWrite fs p v) p = fsRemove fs p := by
  unfold fsWrite fsRemove
  rw [List.filter_cons]
  simp [List.filter_filter]

/-- C7: when `create_database_from_file` fails — an unsupported extension or
a conversion error — the error is surfaced to the caller, the partially
written database file is removed, and no session-map entry is created: under
the freshness of the new session's path the post-state equals the pre-state
exactly. -/
theorem create_db_error_atomic (st : DBState)
    (session_id original_filename : String) (now : Nat)
    (readO : Except String DataFrame) (toSqlO : Except String Unit)
    (copyO : Except String SqliteStore)
    (hfresh : List.lookup (st.temp_dir ++ "/" ++ session_id ++ ".db") st.fs
      = none) :
    (∀ e,
      (create_database_from_file st session_id original_filename now readO
        toSqlO copyO).1 = .error e →
      (create_database_from_file st session_id original_filename now readO
        toSqlO copyO).2 = st)
    ∧ (fileExt original_filename ∉ (["csv", "txt", "xlsx", "xls", "db"] : List String) →
        ∃ e, (create_database_from_file st session_id original_filename now
          readO toSqlO copyO).1 = .error e)
    ∧ ((fileExt original_filename = "csv" ∨ fileExt original_filename = "txt"
          ∨ fileExt original_filename = "xlsx" ∨ fileExt original_filename = "xls") →
        ∀ e, readO = .error e →
        (create_database_from_file st session_id original_filename now readO
          toSqlO copyO).1 = .error e) := by
  refine ⟨?_, ?_, ?_⟩
  · intro e he
    simp only [create_database_from_file] at he ⊢
    by_cases h1 : fileExt original_filename = "csv"
        ∨ fileExt original_filename = "txt"
        ∨ fileExt original_filename = "xlsx"
        ∨ fileExt original_filename = "xls"
    · rw [if_pos h1] at he ⊢
      have h1b : fileExt original_filename = "csv"
          ∨ fileExt original_filename = "txt"
          ∨ fileExt original_filename = "xls"
          ∨ fileExt original_filename = "xlsx" := by tauto
      simp only [convert_to_sqlite, if_pos h1b] at he ⊢
      cases readO with
      | error e2 =>
        simp [lookup_none_fsRemove st.fs _ hfresh]
      | ok df =>
        cases toSqlO with
        | error e2 =>
          simp [fsRemove_fsWrite, lookup_none_fsRemove st.fs _ hfresh]
        | ok u =>
          cases u
          simp at he
    · rw [if_neg h1] at he ⊢
      by_cases h2 : fileExt original_filename = "db"
      · rw [if_pos h2] at he ⊢
        cases copyO with
        | ok store => simp at he
        | error e2 =>
          simp [lookup_none_fsRemove st.fs _ hfresh]
      · rw [if_neg h2] at he ⊢
        simp [lookup_none_fsRemove st.fs _ hfresh]
  · intro hne
    have h1 : ¬ (fileExt original_filename = "csv"
        ∨ fileExt original_filename = "txt"
        ∨ fileExt original_filename = "xlsx"
        ∨ fileExt original_filename = "xls") := by
      rintro (h | h | h | h) <;> exact hne (by simp [h])
    have h2 : ¬ fileExt original_filename = "db" := by
      intro h
      exact hne (by simp [h])
    refine ⟨"Unsupported file format: " ++ fileExt original_filename, ?_⟩
    simp only [create_database_from_file, if_neg h1, if_neg h2]
  · intro h1 e he
    subst he
    have h1b : fileExt original_filename = "csv"
        ∨ fileExt original_filename = "txt"
        ∨ fileExt original_filename = "xls"
        ∨ fileExt original_filename = "xlsx" := by tauto
    simp only [create_database_from_file, if_pos h1, convert_to_sqlite,
      if_pos h1b]

/-- C7 witness: an unsupported extension surfaces an error and leaves the
manager state untouched. -/
theorem create_db_error_atomic_witness :
    (create_database_from_file ⟨"temp", [], []⟩ "s1" "notes.pdf" 0
        (.error "parse failure") (.ok ()) (.error "copy failure")).1
      = .error "Unsupported file format: pdf"
    ∧ (create_database_from_file ⟨"temp", [], []⟩ "s1" "notes.pdf" 0
        (.error "parse failure") (.ok ()) (.error "copy failure")).2
      = ⟨"temp", [], []⟩ := by
  refine ⟨rfl, ?_⟩
  exact (create_db_error_atomic ⟨"temp", [], []⟩ "s1" "notes.pdf" 0
    (.error "parse failure") (.ok ()) (.error "copy failure") rfl).1
    "Unsupported file format: pdf" rfl

/-! ## C8: executor error handling -/

/-- C8: `execute_query` turns every engine-level error into a failed result
carrying the engine's message (the embedding is a total function of the
outcome parameters, so no error propagates as a process-level fault), every
failed result carries an error message, and the connection is closed exactly
when one was opened — on success and on failure alike. -/
theorem execute_query_error_handling (st : DBState)
    (session_id sql_query : String) (connectO : Except String Unit)
    (engineO : Except String (List String × List (List Val))) :
    ((execute_query st session_id sql_query connectO engineO).closed
        = (execute_query st session_id sql_query connectO engineO).opened)
    ∧ ((execute_query st session_id sql_query connectO engineO).out.success = false →
        (execute_query st session_id sql_query connectO engineO).out.error.isSome = true)
    ∧ (∀ rec, List.lookup session_id st.session_db_map = some rec →
        (∀ e, connectO = .ok () → engineO = .error e →
          (execute_query st session_id sql_query connectO engineO).out
            = { success := false, error := some e })
        ∧ (∀ colsRows, connectO = .ok () → engineO = .ok colsRows →
          (execute_query st session_id sql_query connectO engineO).out.success = true
          ∧ (execute_query st session_id sql_query connectO engineO).opened = true
          ∧ (execute_query st session_id sql_query connectO engineO).closed = true)) := by
  cases hrec : List.lookup session_id st.session_db_map with
  | none =>
    refine ⟨by simp [execute_query, hrec], by simp [execute_query, hrec], ?_⟩
    intro rec h
    simp at h
  | some rec0 =>
    cases connectO with
    | error e0 =>
      refine ⟨by simp [execute_query, hrec], by simp [execute_query, hrec], ?_⟩
      intro rec h
      exact ⟨(fun e hco _ => nomatch hco), (fun cr hco _ => nomatch hco)⟩
    | ok u =>
      cases u
      cases engineO with
      | error e1 =>
        refine ⟨by simp [execute_query, hrec], by simp [execute_query, hrec], ?_⟩
        intro rec h
        refine ⟨?_, ?_⟩
        · intro e hco heng
          cases heng
          simp [execute_query, hrec]
        · intro cr hco heng
          exact nomatch heng
      | ok cr =>
        obtain ⟨cols, rows⟩ := cr
        refine ⟨by simp [execute_query, hrec], ?_, ?_⟩
        · intro h
          simp [execute_query, hrec] at h
        · intro rec h
          refine ⟨(fun e hco heng => nomatch heng), ?_⟩
          intro cr2 hco heng
          exact ⟨by simp [execute_query, hrec], by simp [execute_query, hrec],
            by simp [execute_query, hrec]⟩

/-- C8 witness: the theorem applied to a live session and a concrete
unknown-column engine error. -/
theorem execute_query_error_handling_witness :
    (execute_query demoState "s" "SELECT x FROM data" (.ok ())
        (.error "no such column: x")).out
      = { success := false, error := some "no such column: x" }
    ∧ (execute_query demoState "s" "SELECT x FROM data" (.ok ())
        (.error "no such column: x")).closed = true := by
  have h := execute_query_error_handling demoState "s" "SELECT x FROM data"
    (.ok ()) (.error "no such column: x")
  exact ⟨(h.2.2 ⟨"temp/s.db", 0, "d.csv"⟩ rfl).1 "no such column: x" rfl rfl,
    rfl⟩

/-! ## C9: column-name sanitization -/

theorem sanitizeColumn_wordchars (s : String) :
    (sanitizeColumn s).data.all isWordChar = true := by
  unfold sanitizeColumn
  rw [List.all_eq_true]
  intro c hc
  exact (List.mem_filter.mp hc).2

/-- C9: converting a CSV/TSV/Excel file writes table "data" whose column
names are the sanitized originals — stripped, spaces replaced, non-word
characters deleted — so every stored column name consists only of word
characters (letters, digits, underscore). -/
theorem convert_sanitizes_columns (fs : List (String × SqliteStore))
    (sqlite_path file_ext : String) (df : DataFrame)
    (hext : file_ext = "csv" ∨ file_ext = "txt" ∨ file_ext = "xls"
      ∨ file_ext = "xlsx") :
    (convert_to_sqlite fs sqlite_path file_ext (.ok df) (.ok ())).1 = .ok ()
    ∧ List.lookup sqlite_path
        (convert_to_sqlite fs sqlite_path file_ext (.ok df) (.ok ())).2
      = some ⟨[("data", ⟨df.cols.map sanitizeColumn, df.rows⟩)]⟩
    ∧ ∀ name ∈ df.cols.map sanitizeColumn,
        name.data.all isWordChar = true := by
  refine ⟨?_, ?_, ?_⟩
  · simp [convert_to_sqlite, if_pos hext]
  · simp only [convert_to_sqlite, if_pos hext]
    exact lookup_fsWrite _ _ _
  · intro name hname
    obtain ⟨c0, hc0, rfl⟩ := List.mem_map.mp hname
    exact sanitizeColumn_wordchars c0

/-- C9 witness: concrete messy column names are sanitized on conversion. -/
theorem convert_sanitizes_columns_witness :
    List.lookup "temp/s.db"
        (convert_to_sqlite [] "temp/s.db" "csv"
          (.ok ⟨["first name", " Age(years) "], [["Alice", "30"]]⟩)
          (.ok ())).2
      = some ⟨[("data", ⟨["first_name", "Ageyears"], [["Alice", "30"]]⟩)]⟩ := by
  have h := convert_sanitizes_columns [] "temp/s.db" "csv"
    ⟨["first name", " Age(years) "], [["Alice", "30"]]⟩ (Or.inl rfl)
  rw [h.2.1]
  rfl

/-! ## C10: shape of successful execution results -/

theorem lookup_append_of_none {β : Type} (k : String)
    (l1 l2 : List (String × β)) (h : List.lookup k l1 = none) :
    List.lookup k (l1 ++ l2) = List.lookup k l2 := by
  induction l1 with
  | nil => rfl
  | cons kv rest ih =>
    obtain ⟨q, v⟩ := kv
    by_cases hq : k = q
    · subst hq
      simp [List.lookup] at h
    · have hbeq : (k == q) = false := beq_eq_false_iff_ne.mpr hq
      simp only [List.cons_append, List.lookup, hbeq] at h ⊢
      exact ih h

theorem pyDict_keys (ps : List (String × Val)) (d : List (String × Val))
    (hd : ∀ k ∈ ps.map Prod.fst, List.lookup k d = none)
    (hn : (ps.map Prod.fst).Nodup) :
    (ps.foldl (fun acc kv => pyDictInsert acc kv.1 kv.2) d).map Prod.fst
      = d.map Prod.fst ++ ps.map Prod.fst := by
  induction ps generalizing d with
  | nil => simp
  | cons kv rest ih =>
    obtain ⟨k, v⟩ := kv
    have hk : List.lookup k d = none := hd k (by simp)
    have hins : pyDictInsert d k v = d ++ [(k, v)] := by
      simp [pyDictInsert, hk]
    have hn2 : (k :: rest.map Prod.fst).Nodup := hn
    have hnodup := List.nodup_cons.mp hn2
    have hd2 : ∀ k2 ∈ rest.map Prod.fst,
        List.lookup k2 (d ++ [(k, v)]) = none := by
      intro k2 hk2
      have hk2d : List.lookup k2 d = none := hd k2 (by simp [hk2])
      have hk2k : k2 ≠ k := by
        intro he
        subst he
        exact hnodup.1 hk2
      rw [lookup_append_of_none k2 d _ hk2d]
      simp [List.lookup, beq_eq_false_iff_ne.mpr hk2k]
    rw [List.foldl_cons, hins, ih (d ++ [(k, v)]) hd2 hnodup.2]
    simp

theorem rowToDict_keys (cols : List String) (row : List Val)
    (hlen : cols.length ≤ row.length) (hnodup : cols.Nodup) :
    (rowToDict cols row).map Prod.fst = cols := by
  unfold rowToDict pyDictOfPairs
  rw [pyDict_keys (cols.zip row) [] (fun k _ => rfl)
      (by rw [List.map_fst_zip cols row hlen]; exact hnodup)]
  simp [List.map_fst_zip cols row hlen]

/-- C10 counterexample: when the cursor metadata lists the duplicate column
names a, a (as for SELECT a, a FROM data), the dict comprehension collapses
the keys: the result row has the single key a, not the cursor's two column
names in cursor order. -/
theorem execute_query_duplicate_column_cx :
    (execute_query demoState "s" "SELECT a, a FROM data" (.ok ())
        (.ok (["a", "a"], [["1", "1"]]))).out.results
      = some [[("a", "1")]]
    ∧ (rowToDict ["a", "a"] ["1", "1"]).map Prod.fst = ["a"]
    ∧ (["a"] : List String) ≠ ["a", "a"] := by
  refine ⟨rfl, rfl, by decide⟩

/-- C10 (amended): on success, `row_count` equals the number of row mappings
in `results`, and the keys of every row mapping are the cursor's column
names with duplicates collapsed to their first occurrence — in particular
exactly the column names, in cursor order, whenever the cursor's column
names are pairwise distinct (the unrestricted claim fails for duplicate
column names, see the counterexample). -/
theorem execute_query_success_shape (st : DBState)
    (session_id sql_query : String) (cols : List String)
    (rows : List (List Val))
    (hsess : ∃ rec, List.lookup session_id st.session_db_map = some rec)
    (hnodup : cols.Nodup) (hlen : ∀ r ∈ rows, cols.length ≤ r.length) :
    (execute_query st session_id sql_query (.ok ()) (.ok (cols, rows))).out
      = { success := true, results := some (rows.map (rowToDict cols)),
          row_count := some (rows.map (rowToDict cols)).length }
    ∧ ∀ r ∈ rows, (rowToDict cols r).map Prod.fst = cols := by
  obtain ⟨rec, hrec⟩ := hsess
  constructor
  · simp [execute_query, hrec]
  · intro r hr
    exact rowToDict_keys cols r (hlen r hr) hnodup

/-- C10 witness: the amended theorem at a concrete two-column cursor. -/
theorem execute_query_success_shape_witness :
    (execute_query demoState "s" "SELECT a, b FROM data" (.ok ())
        (.ok (["a", "b"], [["1", "2"]]))).out
      = { success := true, results := some [[("a", "1"), ("b", "2")]],
          row_count := some 1 }
    ∧ (rowToDict ["a", "b"] ["1", "2"]).map Prod.fst = ["a", "b"] := by
  have h := execute_query_success_shape demoState "s" "SELECT a, b FROM data"
    ["a", "b"] [["1", "2"]] ⟨⟨"temp/s.db", 0, "d.csv"⟩, rfl⟩ (by decide)
    (by decide)
  exact ⟨h.1.trans rfl, h.2 ["1", "2"] (by simp)⟩
